import Mathlib

/-!
Shallow embedding of `scx_utils::BpfBuilder` (`src/rust/scx_utils/src/bpf_builder.rs`).

The builder orchestrates compilation of a BPF scheduler component from a
`build.rs` script: it derives compiler flags from environment variables,
installs a bundled header archive, compiles and links sources, generates
bindings, and emits cargo rerun directives.  External effects (environment
variables, the filesystem, the clang/bindgen/skeleton tools) are passed in
explicitly; filesystem writes and cargo output lines are returned as data.
-/

/-- Model of Rust `str::split_whitespace` collected into a list: split on
whitespace characters, dropping empty tokens. -/
def splitWhitespaceAux : List Char → List Char → List String
  | [], acc => if acc.isEmpty then [] else [String.mk acc.reverse]
  | c :: cs, acc =>
    if c.isWhitespace then
      if acc.isEmpty then splitWhitespaceAux cs []
      else String.mk acc.reverse :: splitWhitespaceAux cs []
    else splitWhitespaceAux cs (c :: acc)

/-- Whitespace-split of a string, as used for every `*_CFLAGS` variable. -/
def split_whitespace (s : String) : List String :=
  splitWhitespaceAux s.data []

/-- Lexicographic strict order on character lists by scalar value; agrees
with Rust's `String` ordering (byte-wise on UTF-8) on the involved paths. -/
def charListLt : List Char → List Char → Bool
  | [], [] => false
  | [], _ :: _ => true
  | _ :: _, [] => false
  | a :: as, b :: bs =>
    if a.toNat < b.toNat then true
    else if b.toNat < a.toNat then false
    else charListLt as bs

/-- Strict order on strings, used to model `BTreeSet<String>` ordering. -/
def strLtB (a b : String) : Bool := charListLt a.data b.data

/-- Ordered insertion into a sorted duplicate-free list: the model of
`BTreeSet<String>::insert` (iteration order of a `BTreeSet` is ascending). -/
def btreeInsert (x : String) : List String → List String
  | [] => [x]
  | y :: ys =>
    if strLtB x y then x :: y :: ys
    else if x = y then y :: ys
    else y :: btreeInsert x ys

/-- Model of Rust `str::replace` (replace all non-overlapping occurrences,
left to right), on character lists with an explicit fuel argument for
structural termination; fuel is instantiated with the list length. -/
def replaceListAux (pat repl : List Char) : Nat → List Char → List Char
  | _, [] => []
  | 0, s => s
  | Nat.succ n, c :: cs =>
    if pat.isPrefixOf (c :: cs) then
      repl ++ replaceListAux pat repl n (List.drop (pat.length - 1) cs)
    else
      c :: replaceListAux pat repl n cs

/-- Rust `String::replace self pat repl`. -/
def strReplace (s pat repl : String) : String :=
  String.mk (replaceListAux pat.data repl.data s.data.length s.data)

/-- Whether `path` matches the glob pattern `dir ++ "/*.[hc]"`: it lies
directly in `dir` (no further separator) and its final component ends in
`.h` or `.c`.  Models the `glob` crate's matching for this fixed pattern. -/
def globMatchHC (dir path : String) : Bool :=
  let pre := (dir ++ "/").data
  if pre.isPrefixOf path.data then
    let rest := path.data.drop pre.length
    !rest.contains '/' && (List.isSuffixOf ['.', 'h'] rest || List.isSuffixOf ['.', 'c'] rest)
  else false

/-- Split a character list on `'/'`. -/
def splitOnSlashAux : List Char → List Char → List (List Char)
  | [], acc => [acc.reverse]
  | c :: cs, acc =>
    if c = '/' then acc.reverse :: splitOnSlashAux cs []
    else splitOnSlashAux cs (c :: acc)

/-- Join components with `'/'`. -/
def joinSlash : List (List Char) → List Char
  | [] => []
  | [x] => x
  | x :: y :: ys => x ++ '/' :: joinSlash (y :: ys)

/-- Model of `Path::parent().to_str()` for the normalized paths the builder
receives (no trailing separator): drop the last `/`-separated component;
`none` for the empty path and the root. -/
def parentDir (p : String) : Option String :=
  if p = "" ∨ p = "/" then none
  else some (String.mk (joinSlash (splitOnSlashAux p.data []).dropLast))

/-- Model of `PathBuf::join` with a relative right operand. -/
def pathJoin (a b : String) : String := a ++ "/" ++ b

/-- The environment variables read by flag derivation (`env::var`;
`none` models an unset variable). -/
structure Env where
  BPF_CFLAGS : Option String
  BPF_BASE_CFLAGS : Option String
  BPF_EXTRA_CFLAGS_PRE_INCL : Option String
  BPF_EXTRA_CFLAGS_POST_INCL : Option String
deriving DecidableEq

/-- The `BpfBuilder` struct.  `sources` models the `BTreeSet<String>` as a
sorted duplicate-free list. -/
structure BpfBuilder where
  clang : String
  cflags : List String
  out_dir : String
  sources : List String
  intf_input_output : Option (String × String)
  skel_input_name : Option (String × String)
deriving DecidableEq

/-- Outcomes of the external tools invoked during a build: whether `bindgen`
generation succeeds, whether the skeleton `build_and_generate` succeeds, and
the latter's captured stderr lines. -/
structure ExtTools where
  bindgen_ok : Bool
  skel_ok : Bool
  skel_stderr : List String
deriving DecidableEq

/-- Flag derivation, `BpfBuilder::determine_cflags`.  The first component
records the destination at which `install_bpf_h` unpacked the bundled
header archive (a filesystem side effect of the Rust code); the second is
the derived flag list.  `clangBaseCflags` stands for
`clang.determine_base_cflags()` and `kernelTarget` for
`clang.kernel_target()`, both probed from the toolchain outside this file's
source. -/
def BpfBuilder.determine_cflags (e : Env) (clangBaseCflags : List String)
    (kernelTarget : String) (out_dir : String) : String × List String :=
  let bpf_h := pathJoin out_dir "scx_utils-bpf_h"
  let cflags : List String := []
  let cflags := cflags ++
    (match e.BPF_BASE_CFLAGS with
     | some v => split_whitespace v
     | none => clangBaseCflags)
  let cflags := cflags ++
    (match e.BPF_EXTRA_CFLAGS_PRE_INCL with
     | some v => split_whitespace v
     | none => [])
  let cflags := cflags ++ ["-I" ++ bpf_h ++ "/arch/" ++ kernelTarget]
  let cflags := cflags ++ ["-I" ++ bpf_h]
  let cflags := cflags ++ ["-I" ++ bpf_h ++ "/bpf-compat"]
  let cflags := cflags ++
    (match e.BPF_EXTRA_CFLAGS_POST_INCL with
     | some v => split_whitespace v
     | none => [])
  (bpf_h, cflags)

/-- Result of `BpfBuilder::new`: the constructed builder plus the
destination of the header-bundle installation, `none` when `install_bpf_h`
was never invoked. -/
structure NewResult where
  builder : BpfBuilder
  installed_bpf_h : Option String
deriving DecidableEq

/-- `BpfBuilder::new`.  When `BPF_CFLAGS` is set its whitespace-split value
is taken verbatim; otherwise flags are derived (which installs the bundled
headers as a side effect). -/
def BpfBuilder.new (e : Env) (clangCmd : String) (clangBaseCflags : List String)
    (kernelTarget : String) (out_dir : String) : NewResult :=
  match e.BPF_CFLAGS with
  | some v =>
    { builder :=
        { clang := clangCmd
          cflags := split_whitespace v
          out_dir := out_dir
          sources := []
          intf_input_output := none
          skel_input_name := none }
      installed_bpf_h := none }
  | none =>
    let (bpf_h, cflags) := BpfBuilder.determine_cflags e clangBaseCflags kernelTarget out_dir
    { builder :=
        { clang := clangCmd
          cflags := cflags
          out_dir := out_dir
          sources := []
          intf_input_output := none
          skel_input_name := none }
      installed_bpf_h := some bpf_h }

/-- `BpfBuilder::enable_intf`. -/
def BpfBuilder.enable_intf (b : BpfBuilder) (input output : String) : BpfBuilder :=
  { b with intf_input_output := some (input, output) }

/-- `BpfBuilder::enable_skel`: records the skeleton configuration and
registers the input as a source. -/
def BpfBuilder.enable_skel (b : BpfBuilder) (input name : String) : BpfBuilder :=
  { b with
      skel_input_name := some (input, name)
      sources := btreeInsert input b.sources }

/-- `BpfBuilder::add_source`. -/
def BpfBuilder.add_source (b : BpfBuilder) (input : String) : BpfBuilder :=
  { b with sources := btreeInsert input b.sources }

/-- `BpfBuilder::input_insert_deps`: insert the intf input header into the
dependency set when the intf path is configured. -/
def BpfBuilder.input_insert_deps (b : BpfBuilder) (deps : List String) : List String :=
  match b.intf_input_output with
  | none => deps
  | some (input, _) => btreeInsert input deps

/-- `BpfBuilder::bindgen_bpf_intf`: returns the path of the written binding
file, `none` when the intf path is not configured (a no-op, not an error). -/
def BpfBuilder.bindgen_bpf_intf (b : BpfBuilder) (ext : ExtTools) :
    Except String (Option String) :=
  match b.intf_input_output with
  | none => .ok none
  | some (_, output) =>
    if ext.bindgen_ok then .ok (some (pathJoin b.out_dir output))
    else .error "Unable to generate bindings"

/-- `BpfBuilder::gen_cargo_reruns`: the cargo directive lines printed, in
order — five fixed `rerun-if-env-changed` lines, then one
`rerun-if-changed` line per path of the supplied dependency set (when one
is supplied), then one per registered source. -/
def BpfBuilder.gen_cargo_reruns (b : BpfBuilder) (dependencies : Option (List String)) :
    List String :=
  ["cargo:rerun-if-env-changed=BPF_CLANG",
   "cargo:rerun-if-env-changed=BPF_CFLAGS",
   "cargo:rerun-if-env-changed=BPF_BASE_CFLAGS",
   "cargo:rerun-if-env-changed=BPF_EXTRA_CFLAGS_PRE_INCL",
   "cargo:rerun-if-env-changed=BPF_EXTRA_CFLAGS_POST_INCL"]
  ++ (match dependencies with
      | some deps => deps.map (fun dep => "cargo:rerun-if-changed=" ++ dep)
      | none => [])
  ++ b.sources.map (fun source => "cargo:rerun-if-changed=" ++ source)

/-- Actions performed by `BpfBuilder::compile_link_gen` when the skeleton
path is configured: the linked-object path handed to `Linker::new`, the
list of `(source, object-path)` pairs compiled in the loop (the object path
is recomputed inside the loop as
`out_dir.join(name.replace(".bpf.c", ".bpf.o"))`), the object paths handed
to `linker.add_file`, the skeleton binding path, and the emitted rerun
directives. -/
structure CompileLinkGenOut where
  linkobj : String
  compilations : List (String × String)
  linker_inputs : List String
  skel_path : String
  reruns : List String
deriving DecidableEq

/-- `BpfBuilder::compile_link_gen`; `none` models the early `Ok(())` return
when the skeleton path is not configured. -/
def BpfBuilder.compile_link_gen (b : BpfBuilder) : Option CompileLinkGenOut :=
  match b.skel_input_name with
  | none => none
  | some (_, name) =>
    let linkobj := pathJoin b.out_dir (name ++ ".bpf.o")
    let comps := b.sources.map
      (fun _filename => (_filename, pathJoin b.out_dir (strReplace name ".bpf.c" ".bpf.o")))
    some
      { linkobj := linkobj
        compilations := comps
        linker_inputs := comps.map Prod.snd
        skel_path := pathJoin b.out_dir (name ++ "_skel.rs")
        reruns := b.gen_cargo_reruns none }

/-- Result of `BpfBuilder::gen_bpf_skel`: the dependency set after the
sibling scan, the path of the written skeleton binding (`none` when the
skeleton path is not configured), whether a compilation ran, and the
`cargo:warning` lines forwarded from the generator's stderr. -/
structure SkelOut where
  deps : List String
  skel_written : Option String
  compiled : Bool
  warnings : List String
deriving DecidableEq

/-- `BpfBuilder::gen_bpf_skel`: a no-op when the skeleton path is not
configured; otherwise runs `SkeletonBuilder::build_and_generate` (modelled
by `ext.skel_ok` / `ext.skel_stderr`), forwards each stderr line as a
`cargo:warning` line, and inserts into `deps` every file of the filesystem
`fs` matching the glob `<parent of input>/*.[hc]`. -/
def BpfBuilder.gen_bpf_skel (b : BpfBuilder) (ext : ExtTools) (fs : List String)
    (deps : List String) : Except String SkelOut :=
  match b.skel_input_name with
  | none => .ok { deps := deps, skel_written := none, compiled := false, warnings := [] }
  | some (input, name) =>
    let skel_path := pathJoin b.out_dir (name ++ "_skel.rs")
    if ext.skel_ok then
      let warnings := ext.skel_stderr.map (fun line => "cargo:warning=" ++ line)
      match parentDir input with
      | none => .error "Source doesn't have parent dir"
      | some dir =>
        let deps := (fs.filter (fun p => globMatchHC dir p)).foldl
          (fun acc p => btreeInsert p acc) deps
        .ok { deps := deps, skel_written := some skel_path, compiled := true, warnings := warnings }
    else .error "SkeletonBuilder build_and_generate failed"

/-- Result of a successful `BpfBuilder::build`: final dependency set,
paths of the written intf and skeleton bindings (`none` when the
corresponding path is not configured), whether any compilation ran, the
forwarded warning lines, and the emitted cargo rerun directives. -/
structure BuildOut where
  deps : List String
  intf_written : Option String
  skel_written : Option String
  compiled : Bool
  warnings : List String
  reruns : List String
deriving DecidableEq

/-- `BpfBuilder::build`: seed the dependency set from the intf input,
run `bindgen_bpf_intf`, then `gen_bpf_skel`, then emit the cargo rerun
directives; each failing step aborts the build (`?` propagation). -/
def BpfBuilder.build (b : BpfBuilder) (ext : ExtTools) (fs : List String) :
    Except String BuildOut :=
  match b.bindgen_bpf_intf ext with
  | .error e => .error e
  | .ok intfArt =>
    match b.gen_bpf_skel ext fs (b.input_insert_deps []) with
    | .error e => .error e
    | .ok so =>
      .ok
        { deps := so.deps
          intf_written := intfArt
          skel_written := so.skel_written
          compiled := so.compiled
          warnings := so.warnings
          reruns := b.gen_cargo_reruns (some so.deps) }

example : split_whitespace "  -O2  -g " = ["-O2", "-g"] := by decide
example : strReplace "main.bpf.c" ".bpf.c" ".bpf.o" = "main.bpf.o" := by decide
example : strReplace "sched" ".bpf.c" ".bpf.o" = "sched" := by decide
example : parentDir "src/bpf/main.bpf.c" = some "src/bpf" := by decide
example : globMatchHC "src/bpf" "src/bpf/util.h" = true := by decide
example : globMatchHC "src/bpf" "src/bpf/sub/util.h" = false := by decide
example : globMatchHC "src/bpf" "src/bpf/util.hpp" = false := by decide
example : btreeInsert "b" ["a", "c"] = ["a", "b", "c"] := by decide

theorem mem_btreeInsert_self (x : String) (l : List String) : x ∈ btreeInsert x l := by
  induction l with
  | nil => simp [btreeInsert]
  | cons y ys ih =>
    simp only [btreeInsert]
    split
    · exact List.mem_cons_self _ _
    · split
      · next h => subst h; exact List.mem_cons_self _ _
      · exact List.mem_cons_of_mem _ ih

theorem mem_btreeInsert_of_mem {z : String} (x : String) {l : List String} (h : z ∈ l) :
    z ∈ btreeInsert x l := by
  induction l with
  | nil => cases h
  | cons y ys ih =>
    simp only [btreeInsert]
    split
    · exact List.mem_cons_of_mem _ h
    · split
      · exact h
      · rcases List.mem_cons.mp h with h1 | h2
        · subst h1; exact List.mem_cons_self _ _
        · exact List.mem_cons_of_mem _ (ih h2)

theorem mem_foldl_btreeInsert_of_mem_init (l : List String) {init : List String} {q : String}
    (h : q ∈ init) : q ∈ l.foldl (fun acc p => btreeInsert p acc) init := by
  induction l generalizing init with
  | nil => simpa using h
  | cons p ps ih =>
    simp only [List.foldl_cons]
    exact ih (mem_btreeInsert_of_mem p h)

theorem mem_foldl_btreeInsert_of_mem {l : List String} (init : List String) {p : String}
    (h : p ∈ l) : p ∈ l.foldl (fun acc q => btreeInsert q acc) init := by
  induction l generalizing init with
  | nil => cases h
  | cons a as ih =>
    simp only [List.foldl_cons]
    rcases List.mem_cons.mp h with h1 | h2
    · subst h1; exact mem_foldl_btreeInsert_of_mem_init as (mem_btreeInsert_self _ _)
    · exact ih _ h2

/-- C1: when `BPF_CFLAGS` is unset, the flags stored by the constructed
builder are the base flags, then the `BPF_EXTRA_CFLAGS_PRE_INCL` tokens
(whitespace-split, verbatim), then — consecutively and in this fixed
order — the architecture-specific bundled include, the bundle root
include, and the compatibility bundled include, then the
`BPF_EXTRA_CFLAGS_POST_INCL` tokens. -/
theorem C1_flag_order_invariant (e : Env) (clangCmd : String) (clangBaseCflags : List String)
    (kernelTarget out_dir : String) (h : e.BPF_CFLAGS = none) :
    (BpfBuilder.new e clangCmd clangBaseCflags kernelTarget out_dir).builder.cflags =
      (match e.BPF_BASE_CFLAGS with
       | some v => split_whitespace v
       | none => clangBaseCflags) ++
      (match e.BPF_EXTRA_CFLAGS_PRE_INCL with
       | some v => split_whitespace v
       | none => []) ++
      ["-I" ++ pathJoin out_dir "scx_utils-bpf_h" ++ "/arch/" ++ kernelTarget,
       "-I" ++ pathJoin out_dir "scx_utils-bpf_h",
       "-I" ++ pathJoin out_dir "scx_utils-bpf_h" ++ "/bpf-compat"] ++
      (match e.BPF_EXTRA_CFLAGS_POST_INCL with
       | some v => split_whitespace v
       | none => []) := by
  simp [BpfBuilder.new, h, BpfBuilder.determine_cflags]

def envC1 : Env :=
  { BPF_CFLAGS := none
    BPF_BASE_CFLAGS := some "-g -O2"
    BPF_EXTRA_CFLAGS_PRE_INCL := some "-Ipre"
    BPF_EXTRA_CFLAGS_POST_INCL := some "-Ipost" }

theorem C1_flag_order_invariant_witness :
    envC1.BPF_CFLAGS = none ∧
    (BpfBuilder.new envC1 "clang" ["-base"] "x86" "/out").builder.cflags =
      ["-g", "-O2", "-Ipre", "-I/out/scx_utils-bpf_h/arch/x86", "-I/out/scx_utils-bpf_h",
       "-I/out/scx_utils-bpf_h/bpf-compat", "-Ipost"] := by
  refine ⟨rfl, ?_⟩
  rw [C1_flag_order_invariant envC1 "clang" ["-base"] "x86" "/out" rfl]
  decide

/-- C2: when `BPF_CFLAGS` is set, the flags stored by the constructed
builder are exactly its whitespace-split tokens; the other override
variables (arbitrary in `e`) play no role. -/
theorem C2_full_override (e : Env) (v clangCmd : String) (clangBaseCflags : List String)
    (kernelTarget out_dir : String) (h : e.BPF_CFLAGS = some v) :
    (BpfBuilder.new e clangCmd clangBaseCflags kernelTarget out_dir).builder.cflags =
      split_whitespace v := by
  simp [BpfBuilder.new, h]

def envC2 : Env :=
  { BPF_CFLAGS := some " -foo  -bar "
    BPF_BASE_CFLAGS := some "-ignored"
    BPF_EXTRA_CFLAGS_PRE_INCL := some "-alsoignored"
    BPF_EXTRA_CFLAGS_POST_INCL := some "-ignoredtoo" }

theorem C2_full_override_witness :
    envC2.BPF_CFLAGS = some " -foo  -bar " ∧
    (BpfBuilder.new envC2 "clang" ["-base"] "x86" "/out").builder.cflags = ["-foo", "-bar"] := by
  refine ⟨rfl, ?_⟩
  rw [C2_full_override envC2 " -foo  -bar " "clang" ["-base"] "x86" "/out" rfl]
  decide

/-- C9: when `BPF_CFLAGS` is set, constructing the builder never runs flag
derivation, so the bundled header archive is not unpacked: the constructed
result records no header-bundle installation. -/
theorem C9_full_override_skips_bundle_install (e : Env) (v clangCmd : String)
    (clangBaseCflags : List String) (kernelTarget out_dir : String)
    (h : e.BPF_CFLAGS = some v) :
    (BpfBuilder.new e clangCmd clangBaseCflags kernelTarget out_dir).installed_bpf_h = none := by
  simp [BpfBuilder.new, h]

def envC9 : Env :=
  { BPF_CFLAGS := some "-O1"
    BPF_BASE_CFLAGS := none
    BPF_EXTRA_CFLAGS_PRE_INCL := none
    BPF_EXTRA_CFLAGS_POST_INCL := none }

theorem C9_full_override_skips_bundle_install_witness :
    envC9.BPF_CFLAGS = some "-O1" ∧
    (BpfBuilder.new envC9 "clang" ["-base"] "x86" "/out").installed_bpf_h = none :=
  ⟨rfl, C9_full_override_skips_bundle_install envC9 "-O1" "clang" ["-base"] "x86" "/out" rfl⟩

/-- C8: `enable_skel input name` sets the skeleton configuration to
`(input, name)` and inserts `input` into the source set, so the input is
among the sources iterated for rerun emission and for compilation and
linking in `compile_link_gen`. -/
theorem C8_enable_skel_registers_source (b : BpfBuilder) (input name : String) :
    (b.enable_skel input name).skel_input_name = some (input, name) ∧
    input ∈ (b.enable_skel input name).sources ∧
    ("cargo:rerun-if-changed=" ++ input) ∈ (b.enable_skel input name).gen_cargo_reruns none ∧
    ∃ o, (b.enable_skel input name).compile_link_gen = some o ∧
      input ∈ o.compilations.map Prod.fst := by
  refine ⟨rfl, mem_btreeInsert_self input b.sources, ?_, ?_⟩
  · simp only [BpfBuilder.gen_cargo_reruns, BpfBuilder.enable_skel]
    refine List.mem_append_right _ ?_
    exact List.mem_map_of_mem _ (mem_btreeInsert_self input b.sources)
  · refine ⟨_, rfl, ?_⟩
    simp only [BpfBuilder.compile_link_gen, BpfBuilder.enable_skel, List.map_map]
    simpa using mem_btreeInsert_self input b.sources

/-- C10: a repeated `enable_intf` or `enable_skel` call replaces the
previously configured pair (last call wins, no error), while the
superseded skeleton input stays registered in the source set. -/
theorem C10_reconfigure_last_wins_source_kept (b : BpfBuilder) (i1 o1 i2 o2 : String) :
    ((b.enable_intf i1 o1).enable_intf i2 o2).intf_input_output = some (i2, o2) ∧
    ((b.enable_skel i1 o1).enable_skel i2 o2).skel_input_name = some (i2, o2) ∧
    i1 ∈ ((b.enable_skel i1 o1).enable_skel i2 o2).sources ∧
    i2 ∈ ((b.enable_skel i1 o1).enable_skel i2 o2).sources := by
  refine ⟨rfl, rfl, ?_, ?_⟩
  · exact mem_btreeInsert_of_mem i2 (mem_btreeInsert_self i1 b.sources)
  · exact mem_btreeInsert_self i2 _

/-- C6: when neither the intf path nor the skeleton path is configured,
`build` succeeds regardless of the external tools' behaviour, writes no
binding artifact, performs no compilation, and still emits the rerun
directives. -/
theorem C6_disabled_paths_noop (b : BpfBuilder) (ext : ExtTools) (fs : List String)
    (hi : b.intf_input_output = none) (hs : b.skel_input_name = none) :
    BpfBuilder.build b ext fs =
      .ok
        { deps := []
          intf_written := none
          skel_written := none
          compiled := false
          warnings := []
          reruns := b.gen_cargo_reruns (some []) } := by
  simp [BpfBuilder.build, BpfBuilder.input_insert_deps, BpfBuilder.bindgen_bpf_intf,
        BpfBuilder.gen_bpf_skel, hi, hs]

def envAllUnset : Env :=
  { BPF_CFLAGS := none
    BPF_BASE_CFLAGS := none
    BPF_EXTRA_CFLAGS_PRE_INCL := none
    BPF_EXTRA_CFLAGS_POST_INCL := none }

def extAllFail : ExtTools := { bindgen_ok := false, skel_ok := false, skel_stderr := [] }

def bC6 : BpfBuilder :=
  ((BpfBuilder.new envAllUnset "clang" ["-g"] "x86" "/out").builder).add_source "src/x.bpf.c"

theorem C6_disabled_paths_noop_witness :
    bC6.intf_input_output = none ∧ bC6.skel_input_name = none ∧
    BpfBuilder.build bC6 extAllFail ["src/helper.h"] =
      .ok
        { deps := []
          intf_written := none
          skel_written := none
          compiled := false
          warnings := []
          reruns :=
            ["cargo:rerun-if-env-changed=BPF_CLANG",
             "cargo:rerun-if-env-changed=BPF_CFLAGS",
             "cargo:rerun-if-env-changed=BPF_BASE_CFLAGS",
             "cargo:rerun-if-env-changed=BPF_EXTRA_CFLAGS_PRE_INCL",
             "cargo:rerun-if-env-changed=BPF_EXTRA_CFLAGS_POST_INCL",
             "cargo:rerun-if-changed=src/x.bpf.c"] } := by
  refine ⟨rfl, rfl, ?_⟩
  rw [C6_disabled_paths_noop bC6 extAllFail ["src/helper.h"] rfl rfl]
  rfl

/-- C5: `gen_cargo_reruns` with a supplied dependency set always emits the
five fixed `rerun-if-env-changed` directives, a `rerun-if-changed`
directive for every path of the dependency set and for every registered
source (whatever the binding configuration), and every successful `build`
emits exactly `gen_cargo_reruns` of its final dependency set. -/
theorem C5_rerun_directives (b : BpfBuilder) (deps : List String) (d s : String)
    (ext : ExtTools) (fs : List String) (out : BuildOut)
    (hd : d ∈ deps) (hs : s ∈ b.sources)
    (hok : BpfBuilder.build b ext fs = .ok out) :
    "cargo:rerun-if-env-changed=BPF_CLANG" ∈ b.gen_cargo_reruns (some deps) ∧
    "cargo:rerun-if-env-changed=BPF_CFLAGS" ∈ b.gen_cargo_reruns (some deps) ∧
    "cargo:rerun-if-env-changed=BPF_BASE_CFLAGS" ∈ b.gen_cargo_reruns (some deps) ∧
    "cargo:rerun-if-env-changed=BPF_EXTRA_CFLAGS_PRE_INCL" ∈ b.gen_cargo_reruns (some deps) ∧
    "cargo:rerun-if-env-changed=BPF_EXTRA_CFLAGS_POST_INCL" ∈ b.gen_cargo_reruns (some deps) ∧
    ("cargo:rerun-if-changed=" ++ d) ∈ b.gen_cargo_reruns (some deps) ∧
    ("cargo:rerun-if-changed=" ++ s) ∈ b.gen_cargo_reruns (some deps) ∧
    out.reruns = b.gen_cargo_reruns (some out.deps) := by
  refine ⟨?_, ?_, ?_, ?_, ?_, ?_, ?_, ?_⟩
  · exact List.mem_append_left _ (List.mem_append_left _ (by decide))
  · exact List.mem_append_left _ (List.mem_append_left _ (by decide))
  · exact List.mem_append_left _ (List.mem_append_left _ (by decide))
  · exact List.mem_append_left _ (List.mem_append_left _ (by decide))
  · exact List.mem_append_left _ (List.mem_append_left _ (by decide))
  · exact List.mem_append_left _ (List.mem_append_right _ (List.mem_map_of_mem _ hd))
  · exact List.mem_append_right _ (List.mem_map_of_mem _ hs)
  · unfold BpfBuilder.build at hok
    split at hok
    · exact Except.noConfusion hok
    · split at hok
      · exact Except.noConfusion hok
      · injection hok with h
        subst h
        rfl

def outC5 : BuildOut :=
  { deps := []
    intf_written := none
    skel_written := none
    compiled := false
    warnings := []
    reruns :=
      ["cargo:rerun-if-env-changed=BPF_CLANG",
       "cargo:rerun-if-env-changed=BPF_CFLAGS",
       "cargo:rerun-if-env-changed=BPF_BASE_CFLAGS",
       "cargo:rerun-if-env-changed=BPF_EXTRA_CFLAGS_PRE_INCL",
       "cargo:rerun-if-env-changed=BPF_EXTRA_CFLAGS_POST_INCL",
       "cargo:rerun-if-changed=src/x.bpf.c"] }

theorem C5_rerun_directives_witness :
    ("/d" ∈ ["/d"]) ∧ ("src/x.bpf.c" ∈ bC6.sources) ∧
    BpfBuilder.build bC6 extAllFail [] = .ok outC5 ∧
    "cargo:rerun-if-changed=/d" ∈ bC6.gen_cargo_reruns (some ["/d"]) ∧
    "cargo:rerun-if-changed=src/x.bpf.c" ∈ bC6.gen_cargo_reruns (some ["/d"]) ∧
    outC5.reruns = bC6.gen_cargo_reruns (some outC5.deps) := by
  have h := C5_rerun_directives bC6 ["/d"] "/d" "src/x.bpf.c" extAllFail [] outC5
    (by decide) (by decide) rfl
  exact ⟨by decide, by decide, rfl, h.2.2.2.2.2.1, h.2.2.2.2.2.2.1, h.2.2.2.2.2.2.2⟩

/-- C7: when the skeleton path is configured and `build` succeeds, the
build's warning lines are exactly one `cargo:warning` line per line of the
skeleton generator's stderr, in order — nothing suppressed. -/
theorem C7_stderr_forwarded (b : BpfBuilder) (ext : ExtTools) (fs : List String)
    (input name : String) (out : BuildOut)
    (hskel : b.skel_input_name = some (input, name))
    (hok : BpfBuilder.build b ext fs = .ok out) :
    out.warnings = ext.skel_stderr.map (fun line => "cargo:warning=" ++ line) := by
  unfold BpfBuilder.build at hok
  split at hok
  · exact Except.noConfusion hok
  · rename_i intfArt hbind
    split at hok
    · exact Except.noConfusion hok
    · rename_i so hrun
      injection hok with h
      subst h
      unfold BpfBuilder.gen_bpf_skel at hrun
      simp only [hskel] at hrun
      split at hrun
      · split at hrun
        · exact Except.noConfusion hrun
        · injection hrun with h2
          subst h2
          rfl
      · exact Except.noConfusion hrun

def extC7 : ExtTools := { bindgen_ok := true, skel_ok := true, skel_stderr := ["w1", "w2"] }

def bC7 : BpfBuilder :=
  ((BpfBuilder.new envAllUnset "clang" ["-g"] "x86" "/out").builder).enable_skel
    "src/bpf/main.bpf.c" "bpf"

def outC7 : BuildOut :=
  { deps := ["src/bpf/helper.h"]
    intf_written := none
    skel_written := some "/out/bpf_skel.rs"
    compiled := true
    warnings := ["cargo:warning=w1", "cargo:warning=w2"]
    reruns :=
      ["cargo:rerun-if-env-changed=BPF_CLANG",
       "cargo:rerun-if-env-changed=BPF_CFLAGS",
       "cargo:rerun-if-env-changed=BPF_BASE_CFLAGS",
       "cargo:rerun-if-env-changed=BPF_EXTRA_CFLAGS_PRE_INCL",
       "cargo:rerun-if-env-changed=BPF_EXTRA_CFLAGS_POST_INCL",
       "cargo:rerun-if-changed=src/bpf/helper.h",
       "cargo:rerun-if-changed=src/bpf/main.bpf.c"] }

theorem C7_stderr_forwarded_witness :
    bC7.skel_input_name = some ("src/bpf/main.bpf.c", "bpf") ∧
    BpfBuilder.build bC7 extC7 ["src/bpf/helper.h"] = .ok outC7 ∧
    outC7.warnings = ["cargo:warning=w1", "cargo:warning=w2"] :=
  ⟨rfl, rfl,
    C7_stderr_forwarded bC7 extC7 ["src/bpf/helper.h"] "src/bpf/main.bpf.c" "bpf" outC7 rfl rfl⟩

theorem gen_bpf_skel_deps_mono (b : BpfBuilder) (ext : ExtTools) (fs : List String)
    {deps : List String} {so : SkelOut} {q : String}
    (h : b.gen_bpf_skel ext fs deps = .ok so) (hq : q ∈ deps) : q ∈ so.deps := by
  unfold BpfBuilder.gen_bpf_skel at h
  split at h
  · injection h with h1
    subst h1
    exact hq
  · simp only [] at h
    split at h
    · split at h
      · exact Except.noConfusion h
      · injection h with h1
        subst h1
        exact mem_foldl_btreeInsert_of_mem_init _ hq
    · exact Except.noConfusion h

theorem gen_bpf_skel_sibling_in_deps (b : BpfBuilder) (ext : ExtTools) (fs : List String)
    {deps : List String} {so : SkelOut} {input name dir p : String}
    (hskel : b.skel_input_name = some (input, name))
    (hdir : parentDir input = some dir)
    (hp : p ∈ fs) (hmatch : globMatchHC dir p = true)
    (h : b.gen_bpf_skel ext fs deps = .ok so) : p ∈ so.deps := by
  unfold BpfBuilder.gen_bpf_skel at h
  simp only [hskel, hdir] at h
  split at h
  · injection h with h1
    subst h1
    exact mem_foldl_btreeInsert_of_mem _ (List.mem_filter.mpr ⟨hp, hmatch⟩)
  · exact Except.noConfusion h

/-- C4 (amended): the dependency set of a successful build contains the
intf input header whenever the intf path is configured, and every sibling
`*.h`/`*.c` file of the skeleton input's parent directory whenever the
skeleton path is configured; directories of sources registered only via
`add_source` are not scanned (see the counterexample). -/
theorem C4_amended_dependency_set (b : BpfBuilder) (ext : ExtTools) (fs : List String)
    (out : BuildOut) (hok : BpfBuilder.build b ext fs = .ok out) :
    (∀ intfIn intfOut, b.intf_input_output = some (intfIn, intfOut) → intfIn ∈ out.deps) ∧
    (∀ input name dir p, b.skel_input_name = some (input, name) → parentDir input = some dir →
      p ∈ fs → globMatchHC dir p = true → p ∈ out.deps) := by
  unfold BpfBuilder.build at hok
  split at hok
  · exact Except.noConfusion hok
  · rename_i intfArt hbind
    split at hok
    · exact Except.noConfusion hok
    · rename_i so hrun
      injection hok with h
      subst h
      constructor
      · intro intfIn intfOut hintf
        refine gen_bpf_skel_deps_mono b ext fs hrun ?_
        unfold BpfBuilder.input_insert_deps
        rw [hintf]
        exact mem_btreeInsert_self _ _
      · intro input name dir p hskel hdir hp hmatch
        exact gen_bpf_skel_sibling_in_deps b ext fs hskel hdir hp hmatch hrun

def extAllOk : ExtTools := { bindgen_ok := true, skel_ok := true, skel_stderr := [] }

def bC4w : BpfBuilder :=
  (((BpfBuilder.new envAllUnset "clang" ["-g"] "x86" "/out").builder).enable_intf
      "src/bpf/intf.h" "bpf_intf.rs").enable_skel "src/bpf/main.bpf.c" "bpf"

def outC4w : BuildOut :=
  { deps := ["src/bpf/intf.h", "src/bpf/util.h"]
    intf_written := some "/out/bpf_intf.rs"
    skel_written := some "/out/bpf_skel.rs"
    compiled := true
    warnings := []
    reruns :=
      ["cargo:rerun-if-env-changed=BPF_CLANG",
       "cargo:rerun-if-env-changed=BPF_CFLAGS",
       "cargo:rerun-if-env-changed=BPF_BASE_CFLAGS",
       "cargo:rerun-if-env-changed=BPF_EXTRA_CFLAGS_PRE_INCL",
       "cargo:rerun-if-env-changed=BPF_EXTRA_CFLAGS_POST_INCL",
       "cargo:rerun-if-changed=src/bpf/intf.h",
       "cargo:rerun-if-changed=src/bpf/util.h",
       "cargo:rerun-if-changed=src/bpf/main.bpf.c"] }

theorem C4_amended_dependency_set_witness :
    BpfBuilder.build bC4w extAllOk ["src/bpf/util.h"] = .ok outC4w ∧
    "src/bpf/intf.h" ∈ outC4w.deps ∧ "src/bpf/util.h" ∈ outC4w.deps := by
  have h := C4_amended_dependency_set bC4w extAllOk ["src/bpf/util.h"] outC4w rfl
  exact ⟨rfl, h.1 "src/bpf/intf.h" "bpf_intf.rs" rfl,
    h.2 "src/bpf/main.bpf.c" "bpf" "src/bpf" "src/bpf/util.h" rfl rfl (by decide) (by decide)⟩

def bC4 : BpfBuilder :=
  (((BpfBuilder.new envAllUnset "clang" ["-g"] "x86" "/out").builder).enable_skel
      "src/bpf/main.bpf.c" "bpf").add_source "lib/extra.bpf.c"

def fsC4 : List String :=
  ["lib/extra.bpf.c", "lib/helpers.h", "src/bpf/main.bpf.c", "src/bpf/util.h"]

def outC4 : BuildOut :=
  { deps := ["src/bpf/main.bpf.c", "src/bpf/util.h"]
    intf_written := none
    skel_written := some "/out/bpf_skel.rs"
    compiled := true
    warnings := []
    reruns :=
      ["cargo:rerun-if-env-changed=BPF_CLANG",
       "cargo:rerun-if-env-changed=BPF_CFLAGS",
       "cargo:rerun-if-env-changed=BPF_BASE_CFLAGS",
       "cargo:rerun-if-env-changed=BPF_EXTRA_CFLAGS_PRE_INCL",
       "cargo:rerun-if-env-changed=BPF_EXTRA_CFLAGS_POST_INCL",
       "cargo:rerun-if-changed=src/bpf/main.bpf.c",
       "cargo:rerun-if-changed=src/bpf/util.h",
       "cargo:rerun-if-changed=lib/extra.bpf.c",
       "cargo:rerun-if-changed=src/bpf/main.bpf.c"] }

/-- C4 counterexample: `lib/extra.bpf.c` is a registered source (added via
`add_source`), `lib/helpers.h` is a sibling file matching `lib/*.[hc]` and
present on the filesystem, the build succeeds — yet `lib/helpers.h` is not
in the computed dependency set: only the skeleton input's directory is
scanned. -/
theorem C4_counterexample_add_source_not_scanned :
    "lib/extra.bpf.c" ∈ bC4.sources ∧
    parentDir "lib/extra.bpf.c" = some "lib" ∧
    globMatchHC "lib" "lib/helpers.h" = true ∧
    "lib/helpers.h" ∈ fsC4 ∧
    BpfBuilder.build bC4 extAllOk fsC4 = .ok outC4 ∧
    "lib/helpers.h" ∉ outC4.deps := by
  refine ⟨by decide, by decide, by decide, by decide, rfl, by decide⟩

def bC3 : BpfBuilder :=
  (((BpfBuilder.new envAllUnset "clang" ["-g"] "x86" "/out").builder).enable_skel
      "src/bpf/main.bpf.c" "sched").add_source "src/bpf/other.bpf.c"

/-- C3: evaluation of `compile_link_gen` on a builder with two registered
sources and skeleton name `sched`.  Both compilations use the same object
path `/out/sched` (computed as `name.replace(".bpf.c", ".bpf.o")`, a no-op
on the program name `sched`), instead of one object per source derived from
that source's filename; the linker is handed the same path twice. -/
theorem C3_object_path_shared_across_sources :
    BpfBuilder.compile_link_gen bC3 =
      some
        { linkobj := "/out/sched.bpf.o"
          compilations :=
            [("src/bpf/main.bpf.c", "/out/sched"), ("src/bpf/other.bpf.c", "/out/sched")]
          linker_inputs := ["/out/sched", "/out/sched"]
          skel_path := "/out/sched_skel.rs"
          reruns :=
            ["cargo:rerun-if-env-changed=BPF_CLANG",
             "cargo:rerun-if-env-changed=BPF_CFLAGS",
             "cargo:rerun-if-env-changed=BPF_BASE_CFLAGS",
             "cargo:rerun-if-env-changed=BPF_EXTRA_CFLAGS_PRE_INCL",
             "cargo:rerun-if-env-changed=BPF_EXTRA_CFLAGS_POST_INCL",
             "cargo:rerun-if-changed=src/bpf/main.bpf.c",
             "cargo:rerun-if-changed=src/bpf/other.bpf.c"] } := by
  rfl
